import Mathlib

/-!
Verification of the evm-chain-toolkit batch-transfer engine and its
queue/retry substrate, shallowly embedded from the TypeScript sources
(`src/utils/retry.ts`, `src/utils/queue.ts`, `src/api/etherscan.ts`,
`src/services/batch-sender.ts`, `src/services/batch-report-manager.ts`).

Modelling conventions:
* Promises and `async` control flow are rendered as explicit state passing;
  a fallible call is `Except String α` (the `String` is the JS error message).
* External collaborators (the ethers.js number/address helpers and the JSON-RPC
  provider) are passed in as explicit function parameters / oracle records; the
  toolkit's own control flow is translated statement by statement.
* Machine numbers that the code keeps as decimal strings or JS floats are
  modelled as `Nat`/`ℚ`; wall-clock timestamps and log output are dropped.
-/

namespace EvmToolkit

/-! ### JSON values (the shape of `JSON.parse` / `JSON.stringify` data) -/

/-- A parsed JSON value, as produced by `JSON.parse`. -/
inductive Json where
  | str (s : String)
  | num (q : ℚ)
  | bool (b : Bool)
  | null
  | arr (items : List Json)
  | obj (fields : List (String × Json))

/-- Property lookup `value[key]`; `none` models JS `undefined`. -/
def Json.getField : Json → String → Option Json
  | .obj fs, k => fs.lookup k
  | _, _ => none

/-- JS truthiness of a parsed JSON value. -/
def Json.truthy : Json → Bool
  | .null => false
  | .bool b => b
  | .num q => decide (q ≠ 0)
  | .str s => decide (s ≠ "")
  | .arr _ => true
  | .obj _ => true

mutual

/-- `JSON.stringify` (string escaping and JS float formatting are kept naive;
none of the strings we reason about need escapes). -/
def Json.stringify : Json → String
  | .str s => "\"" ++ s ++ "\""
  | .num q => toString q
  | .bool b => cond b "true" "false"
  | .null => "null"
  | .arr items => "[" ++ String.intercalate "," (Json.stringifyItems items) ++ "]"
  | .obj fields => "\x7b" ++ String.intercalate "," (Json.stringifyFields fields) ++ "\x7d"

/-- Stringified elements of a JSON array. -/
def Json.stringifyItems : List Json → List String
  | [] => []
  | j :: rest => Json.stringify j :: Json.stringifyItems rest

/-- Stringified key/value pairs of a JSON object. -/
def Json.stringifyFields : List (String × Json) → List String
  | [] => []
  | (k, v) :: rest => ("\"" ++ k ++ "\":" ++ Json.stringify v) :: Json.stringifyFields rest

end

mutual

/-- The JS `String(value)` conversion used by `amount.toString()`. -/
def Json.toStr : Json → String
  | .str s => s
  | .num q => toString q
  | .bool b => cond b "true" "false"
  | .null => "null"
  | .arr items => String.intercalate "," (Json.toStrItems items)
  | .obj _ => "[object Object]"

/-- Element conversions of a JSON array under `String(...)`. -/
def Json.toStrItems : List Json → List String
  | [] => []
  | j :: rest => Json.toStr j :: Json.toStrItems rest

end

/-! ### Core batch-sender data model (`src/types/batch-sender.ts`) -/

/-- `BatchRecipient`: an address plus a human-readable decimal amount string. -/
structure Recipient where
  address : String
  amount : String
deriving Repr, DecidableEq

/-- The `status` field of a `TransferResult`. -/
inductive TransferStatus where
  | success
  | failed
deriving Repr, DecidableEq, BEq

/-- `TransferResult` (the `timestamp` wall-clock field is not modelled; the
numeric strings `gasUsed`/`blockNumber` are modelled as `Nat`, the formatted
`gasCostMatic` decimal string as `ℚ`). -/
structure TransferResult where
  recipient : String
  amount : String
  status : TransferStatus
  txHash : Option String := none
  blockNumber : Option Nat := none
  gasUsed : Option Nat := none
  gasCostMatic : Option ℚ := none
  error : Option String := none
  attempts : Option Nat := none
deriving Repr, DecidableEq

/-- `TokenInfo` fetched once per run and cached. -/
structure TokenInfo where
  address : String
  symbol : String
  name : String
  decimals : Nat
  totalSupply : String
deriving Repr, DecidableEq

/-- `BatchConfig` (the `privateKey`/`rpcUrl` connection strings only feed the
external provider construction and are omitted; defaults as in the
constructor of `BatchTokenSender`). -/
structure BatchConfig where
  tokenContract : String
  gasLimitMultiplier : ℚ := 6 / 5
  maxRetries : Nat := 3
  retryDelayMs : Nat := 2000
  batchSize : Nat := 10
  dryRun : Bool := false
deriving Repr

/-! ### RetryUtil (`src/utils/retry.ts`) -/

/-- `RetryConfig`. -/
structure RetryConfig where
  maxRetries : Nat
  baseDelayMs : Nat
  maxDelayMs : Nat
  backoffMultiplier : ℚ
deriving Repr

/-- `RetryError`: the wrapper thrown after the final failed attempt, carrying
the original error, the attempt number and the attempt cap. -/
structure RetryError (ε : Type) where
  message : String
  originalError : ε
  attempt : Nat
  maxRetries : Nat
deriving Repr, DecidableEq

/-- Message built by `new RetryError(...)` in `executeWithRetry`. -/
def retryErrorMessage (maxRetries : Nat) (context : Option String) : String :=
  "Failed after " ++ toString maxRetries ++ " attempts" ++
    (match context with
     | some c => " (" ++ c ++ ")"
     | none => "")

/-- Result of `executeWithRetry`: the success value, the thrown `RetryError`,
or the degenerate trailing `throw lastError!` (reachable only when
`maxRetries = 0`, where `lastError` was never assigned).  Each constructor
also records how many times the wrapped operation was invoked. -/
inductive RetryResult (ε α : Type) where
  | ok (value : α) (invocations : Nat)
  | exhausted (err : RetryError ε) (invocations : Nat)
  | noAttempt
deriving Repr

/-- The attempt loop of `executeWithRetry`: `fn i` is the outcome of the
`i`-th invocation of the wrapped operation (attempts are 1-indexed, as in the
source); `fuel` counts the loop iterations still allowed by
`attempt <= maxRetries`.  Backoff sleeps have no observable effect here and
are dropped. -/
def retryGo (maxRetries : Nat) (context : Option String) (fn : Nat → Except ε α) :
    Nat → Nat → RetryResult ε α
  | _, 0 => .noAttempt
  | attempt, fuel + 1 =>
    match fn attempt with
    | .ok a => .ok a attempt
    | .error e =>
      if attempt = maxRetries then
        .exhausted ⟨retryErrorMessage maxRetries context, e, attempt, maxRetries⟩ attempt
      else
        retryGo maxRetries context fn (attempt + 1) fuel

/-- `RetryUtil.executeWithRetry`: up to `maxRetries` total attempts, starting
at attempt 1. -/
def executeWithRetry (cfg : RetryConfig) (context : Option String)
    (fn : Nat → Except ε α) : RetryResult ε α :=
  retryGo cfg.maxRetries context fn 1 cfg.maxRetries

/-- `calculateDelay`: `min(baseDelayMs * backoffMultiplier^(attempt-1), maxDelayMs)`. -/
def calculateDelay (cfg : RetryConfig) (attempt : Nat) : ℚ :=
  min ((cfg.baseDelayMs : ℚ) * cfg.backoffMultiplier ^ (attempt - 1)) (cfg.maxDelayMs : ℚ)

/-! ### External ethers.js helpers, as black-box parameters

The spec treats the address/encoding library as an external collaborator, so
its entry points used by `BatchTokenSender` are parameters of the embedding:
`isAddress`/`getAddress` (EIP-55 handling), JS `parseFloat` (where `none`
models `NaN`), and `ethers.parseUnits` both on the raw amount string and on
an already-summed decimal value (`toString` then `parseUnits` is modelled as
acting on the exact rational).  `formatUnits`/`formatEther` followed by
`parseFloat` round-trips a decimal rendering and is modelled as the identity
on `ℚ`. -/

structure EthersFns where
  isAddress : String → Bool
  getAddress : String → String
  parseFloatQ : String → Option ℚ
  parseUnitsStr : String → Nat → Except String Nat
  parseUnitsQ : ℚ → Nat → Except String Nat

/-- `ethers.parseUnits("30", "gwei")`, the gas-price fallback. -/
def gweiFallback : Nat := 30000000000

/-- `ethers.formatEther` on a wei balance, kept as an exact rational. -/
def formatEtherQ (wei : Nat) : ℚ := (wei : ℚ) / (10 ^ 18 : ℚ)

/-! ### `BatchTokenSender.validateRecipients` -/

/-- The validation loop body: `seen` is the set of checksummed addresses
already accepted (the insertion-order list of the `Set` contents). -/
def validateRecipientsGo (fns : EthersFns) : List Recipient → List String →
    Except String (List Recipient)
  | [], _ => .ok []
  | r :: rest, seen =>
    if !(fns.isAddress r.address) then
      .error ("Invalid address: " ++ r.address)
    else
      let checksumAddress := fns.getAddress r.address
      if seen.contains checksumAddress then
        .error ("Duplicate address found: " ++ checksumAddress)
      else
        match fns.parseFloatQ r.amount with
        | none => .error ("Invalid amount for " ++ checksumAddress ++ ": " ++ r.amount)
        | some q =>
          if q ≤ 0 then
            .error ("Invalid amount for " ++ checksumAddress ++ ": " ++ r.amount)
          else do
            let validated ← validateRecipientsGo fns rest (checksumAddress :: seen)
            .ok ({ address := checksumAddress, amount := r.amount } :: validated)

/-- `BatchTokenSender.validateRecipients`. -/
def validateRecipients (fns : EthersFns) (recipients : List Recipient) :
    Except String (List Recipient) :=
  validateRecipientsGo fns recipients []

/-! ### `BatchTokenSender.loadRecipientsFromJson` -/

/-- JS `a || b` on possibly-undefined property reads. -/
def jsOr (a b : Option Json) : Option Json :=
  match a with
  | some j => if j.truthy then some j else b
  | none => b

/-- The raw `address` property of one input item (`item.address`); non-string
values are carried by their printed form and rejected by `isAddress` later. -/
def addressOf (item : Json) : String :=
  match item.getField "address" with
  | some (.str s) => s
  | some j => j.stringify
  | none => "undefined"

/-- One element of the input array: pick `amount` or `value`, reject
`undefined`/`null`, and coerce to a string. -/
def toRecipient (item : Json) : Except String Recipient :=
  match jsOr (item.getField "amount") (item.getField "value") with
  | none => .error ("Recipient missing amount/value field: " ++ item.stringify)
  | some .null => .error ("Recipient missing amount/value field: " ++ item.stringify)
  | some a => .ok { address := addressOf item, amount := a.toStr }

/-- `BatchTokenSender.loadRecipientsFromJson`, applied to the parsed file
content (`fs.readFileSync` + `JSON.parse` are the caller's concern here). -/
def loadRecipientsFromJson (fns : EthersFns) (filepath : String) (j : Json) :
    Except String (List Recipient) :=
  let inner : Except String (List Recipient) :=
    match j with
    | .arr rawRecipients => do
      let recipients ← rawRecipients.mapM toRecipient
      validateRecipients fns recipients
    | _ => .error "JSON file must contain an array of recipients"
  match inner with
  | .ok v => .ok v
  | .error e => .error ("Failed to load recipients from " ++ filepath ++ ": " ++ e)

/-! ### `BatchTokenSender.executeTransfer` -/

/-- JS `String.prototype.includes`: does `search` occur contiguously in `s`? -/
def jsIncludes (s search : String) : Bool :=
  (List.range (s.data.length + 1)).any fun i => search.data.isPrefixOf (s.data.drop i)

/-- Whether an error message is the provider's rate-limit signal
(`errorMessage.includes('rate limit') || errorMessage.includes('Too many requests')`). -/
def isRateLimitMessage (msg : String) : Bool :=
  jsIncludes msg "rate limit" || jsIncludes msg "Too many requests"

/-- The placeholder hash recorded for dry-run transfers. -/
def mockTxHash : String := "0x" ++ String.mk (List.replicate 64 '0')

/-- A confirmed transaction receipt. -/
structure Receipt where
  hash : String
  blockNumber : Nat
  gasUsed : Nat
deriving Repr, DecidableEq

/-- The provider/chain responses consumed by one invocation of
`executeTransfer`: the gas estimate, `getFeeData().gasPrice`, the
`populateTransaction` build step, `sendTransaction` (broadcast, yielding the
tx hash) and `txResponse.wait()` (confirmation). -/
structure AttemptOutcome where
  estimateGas : Except String Nat
  feeGasPrice : Option Nat
  populate : Except String Unit
  sendTx : Except String String
  waitReceipt : Except String Receipt
deriving Repr

/-- The `failed` result built in `executeTransfer`'s catch-all. -/
def failedResult (r : Recipient) (e : String) : TransferResult :=
  { recipient := r.address, amount := r.amount, status := .failed, error := some e }

/-- The transfer transaction as assembled before broadcast: the populated
call plus the explicitly set `gasLimit`, `gasPrice` and `nonce`. -/
structure TxRequest where
  toAddr : String
  amount : Nat
  gasLimit : Nat
  gasPrice : Nat
  nonce : Nat
deriving Repr, DecidableEq

/-- `BatchTokenSender.executeTransfer`.  The first component is the returned
result, or `.error` for an exception thrown *outside* the try/catch (a
token-info fetch failure or an `ethers.parseUnits` failure on the amount);
the second component lists the transactions handed to `sendTransaction`
(the broadcasts performed, including rejected ones). -/
def executeTransfer (cfg : BatchConfig) (fns : EthersFns)
    (tiRes : Except String TokenInfo) (r : Recipient) (nonce : Nat)
    (o : AttemptOutcome) : Except String TransferResult × List TxRequest :=
  match tiRes with
  | .error e => (.error e, [])
  | .ok ti =>
    match fns.parseUnitsStr r.amount ti.decimals with
    | .error e => (.error e, [])
    | .ok amount =>
      match o.estimateGas with
      | .error e => (.ok (failedResult r e), [])
      | .ok gasLimit =>
        let adjustedGasLimit := (((gasLimit : ℚ) * cfg.gasLimitMultiplier).floor).toNat
        let gasPrice := o.feeGasPrice.getD gweiFallback
        match o.populate with
        | .error e => (.ok (failedResult r e), [])
        | .ok _ =>
          let tx : TxRequest :=
            { toAddr := r.address, amount := amount, gasLimit := adjustedGasLimit,
              gasPrice := gasPrice, nonce := nonce }
          if cfg.dryRun then
            (.ok { recipient := r.address, amount := r.amount, status := .success,
                   txHash := some mockTxHash,
                   gasUsed := some adjustedGasLimit,
                   gasCostMatic := some (formatEtherQ (adjustedGasLimit * gasPrice)) }, [])
          else
            match o.sendTx with
            | .error e => (.ok (failedResult r e), [tx])
            | .ok txHash =>
              match o.waitReceipt with
              | .error e =>
                if isRateLimitMessage e then
                  (.ok { recipient := r.address, amount := r.amount, status := .success,
                         txHash := some txHash, blockNumber := none,
                         gasUsed := some adjustedGasLimit,
                         gasCostMatic := some (formatEtherQ (adjustedGasLimit * gasPrice)) }, [tx])
                else
                  (.ok (failedResult r e), [tx])
              | .ok receipt =>
                (.ok { recipient := r.address, amount := r.amount, status := .success,
                       txHash := some receipt.hash,
                       blockNumber := some receipt.blockNumber,
                       gasUsed := some receipt.gasUsed,
                       gasCostMatic := some (formatEtherQ (receipt.gasUsed * gasPrice)) }, [tx])

/-! ### `BatchTokenSender.executeBatchTransfers` -/

/-- The `i += size` loop of `chunkArray`, driven by a structural fuel that
bounds the number of iterations (the list shrinks by at least one element
per chunk whenever `size ≥ 1`, so `l.length` fuel is always enough). -/
def chunkArrayGo (size : Nat) : Nat → List α → List (List α)
  | 0, _ => []
  | _, [] => []
  | fuel + 1, x :: xs =>
    if size = 0 then []
    else ((x :: xs).take size) :: chunkArrayGo size fuel ((x :: xs).drop size)

/-- `chunkArray` (the `size = 0` case makes the JS loop spin forever; it is
rendered as an empty chunk list and excluded by the `batchSize ≥ 1`
hypotheses of every theorem that runs batches). -/
def chunkArray (l : List α) (size : Nat) : List (List α) :=
  chunkArrayGo size l.length l

/-- The per-invocation provider behaviour for a whole batch run: invocation
`k` of `executeTransfer` (counted globally, 0-indexed) sees `attempts k`; the
per-batch `getTransactionCount(..., 'pending')` read for batch `b` yields
`txCount b`. -/
structure ChainEnv where
  attempts : Nat → AttemptOutcome
  txCount : Nat → Nat
  nativeBalance : Nat
  tokenBalance : Nat
  batchEstimateGas : Except String Nat
  batchFeeGasPrice : Option Nat

/-- Outcome of the per-recipient block of `executeBatchTransfers`: the
recorded result, the `transferSuccessful` flag that gates the nonce
increment, the number of `executeTransfer` invocations consumed, and the
broadcasts performed. -/
structure StepOut where
  result : TransferResult
  succeeded : Bool
  invocations : Nat
  broadcasts : List TxRequest
deriving Repr

/-- The retry configuration assembled inline in `executeBatchTransfers`. -/
def batchRetryConfig (cfg : BatchConfig) : RetryConfig :=
  { maxRetries := cfg.maxRetries, baseDelayMs := cfg.retryDelayMs,
    maxDelayMs := 10000, backoffMultiplier := 2 }

/-- One recipient inside a batch: wrap `executeTransfer` in
`retryUtil.executeWithRetry`; a thrown `RetryError` is caught and turned into
a failed result carrying the retry-exhausted message and
`maxRetries + 1` as the attempt count (the 60s rate-limit cooldown performed
in that catch has no further observable effect). -/
def processOne (cfg : BatchConfig) (fns : EthersFns) (tiRes : Except String TokenInfo)
    (env : Nat → AttemptOutcome) (r : Recipient) (nonce k : Nat) : StepOut :=
  let attemptFull := fun attempt => executeTransfer cfg fns tiRes r nonce (env (k + attempt - 1))
  let rr := executeWithRetry (batchRetryConfig cfg) (some ("transfer to " ++ r.address))
      (fun attempt => (attemptFull attempt).1)
  match rr with
  | .ok result n =>
    { result := result, succeeded := result.status == .success, invocations := n,
      broadcasts := (List.range n).flatMap fun i => (attemptFull (i + 1)).2 }
  | .exhausted re n =>
    { result := { recipient := r.address, amount := r.amount, status := .failed,
                  error := some re.message, attempts := some (cfg.maxRetries + 1) },
      succeeded := false, invocations := n,
      broadcasts := (List.range n).flatMap fun i => (attemptFull (i + 1)).2 }
  | .noAttempt =>
    { result := { recipient := r.address, amount := r.amount, status := .failed,
                  error := some "undefined", attempts := some (cfg.maxRetries + 1) },
      succeeded := false, invocations := 0, broadcasts := [] }

/-- The inner `for (let i = 0; i < batch.length; i++)` loop: returns the
recorded results, the nonce passed to each transfer, the nonce counter after
the batch, the next free invocation index, and the broadcasts. -/
def processBatchGo (cfg : BatchConfig) (fns : EthersFns) (tiRes : Except String TokenInfo)
    (env : Nat → AttemptOutcome) :
    List Recipient → Nat → Nat →
      List TransferResult × List Nat × Nat × Nat × List TxRequest
  | [], nonce, k => ([], [], nonce, k, [])
  | r :: rest, nonce, k =>
    let s := processOne cfg fns tiRes env r nonce k
    let nonce2 := if s.succeeded then nonce + 1 else nonce
    let rec2 := processBatchGo cfg fns tiRes env rest nonce2 (k + s.invocations)
    (s.result :: rec2.1, nonce :: rec2.2.1, rec2.2.2.1, rec2.2.2.2.1,
      s.broadcasts ++ rec2.2.2.2.2)

/-- The per-batch trace: the freshly fetched starting nonce, the recorded
results and the nonce each transfer was submitted with. -/
structure PerBatch where
  startNonce : Nat
  results : List TransferResult
  nonces : List Nat
deriving Repr

/-- The outer batch loop. -/
def runBatches (cfg : BatchConfig) (fns : EthersFns) (tiRes : Except String TokenInfo)
    (env : Nat → AttemptOutcome) (txCount : Nat → Nat) :
    List (List Recipient) → Nat → Nat → List PerBatch × Nat × List TxRequest
  | [], _, k => ([], k, [])
  | batch :: more, batchIndex, k =>
    let startNonce := txCount batchIndex
    let pb := processBatchGo cfg fns tiRes env batch startNonce k
    let more2 := runBatches cfg fns tiRes env txCount more (batchIndex + 1) pb.2.2.2.1
    ({ startNonce := startNonce, results := pb.1, nonces := pb.2.1 } :: more2.1,
      more2.2.1, pb.2.2.2.2 ++ more2.2.2)

/-- The observable outcome of `executeBatchTransfers`: the flat result list
the method returns, the per-batch traces, the total number of
`executeTransfer` invocations, and every transaction broadcast. -/
structure BatchTrace where
  batches : List PerBatch
  results : List TransferResult
  invocations : Nat
  broadcasts : List TxRequest
deriving Repr

/-- `BatchTokenSender.executeBatchTransfers`. -/
def executeBatchTransfers (cfg : BatchConfig) (fns : EthersFns)
    (tiRes : Except String TokenInfo) (env : Nat → AttemptOutcome)
    (txCount : Nat → Nat) (recipients : List Recipient) : Except String BatchTrace :=
  match tiRes with
  | .error e => .error e
  | .ok ti =>
    let batches := chunkArray recipients cfg.batchSize
    let out := runBatches cfg fns (.ok ti) env txCount batches 0 0
    .ok { batches := out.1, results := (out.1.map PerBatch.results).flatten,
          invocations := out.2.1, broadcasts := out.2.2 }

/-! ### Preflight: `estimateGasForBatch`, `checkBalances`, `executeBatch` -/

/-- `GasEstimate` (numeric strings kept as `Nat`/`ℚ`). -/
structure GasEstimate where
  gasLimit : Nat
  gasPrice : Nat
  gasCostMatic : ℚ
deriving Repr, DecidableEq

/-- `BatchTokenSender.estimateGasForBatch`: sample the first recipient,
estimate one transfer, apply the multiplier, price the whole batch.
`recipients[0]` on an empty list is JS `undefined`, so the subsequent
property access throws. -/
def estimateGasForBatch (cfg : BatchConfig) (fns : EthersFns) (ti : TokenInfo)
    (chain : ChainEnv) (recipients : List Recipient) : Except String GasEstimate :=
  match recipients with
  | [] => .error "Cannot read properties of undefined (reading amount)"
  | sampleRecipient :: _ =>
    let bad : Except String GasEstimate :=
      .error ("Invalid amount for gas estimation: \"" ++ sampleRecipient.amount ++ "\"")
    match fns.parseFloatQ sampleRecipient.amount with
    | none => bad
    | some amountNum =>
      if amountNum ≤ 0 then bad
      else
        match fns.parseUnitsStr sampleRecipient.amount ti.decimals with
        | .error e => .error e
        | .ok _sampleAmount =>
          match chain.batchEstimateGas with
          | .error e => .error e
          | .ok gasLimit =>
            let adjustedGasLimit := (((gasLimit : ℚ) * cfg.gasLimitMultiplier).floor).toNat
            let gasPrice := chain.batchFeeGasPrice.getD gweiFallback
            let totalGasLimit := adjustedGasLimit * recipients.length
            let gasCostWei := totalGasLimit * gasPrice
            .ok { gasLimit := adjustedGasLimit, gasPrice := gasPrice,
                  gasCostMatic := formatEtherQ gasCostWei }

/-- `BalanceCheck` (formatted balances kept as exact rationals). -/
structure BalanceCheck where
  maticBalance : ℚ
  tokenBalance : ℚ
  sufficientMatic : Bool
  sufficientToken : Bool
  estimatedGasCost : ℚ
deriving Repr, DecidableEq

/-- The amount-summing loop of `checkBalances` (validates and adds each
human-unit amount). -/
def sumAmounts (fns : EthersFns) : List Recipient → Except String ℚ
  | [] => .ok 0
  | r :: rest =>
    let bad : Except String ℚ :=
      .error ("Invalid amount for recipient " ++ r.address ++ ": \"" ++ r.amount ++ "\"")
    match fns.parseFloatQ r.amount with
    | none => bad
    | some amountNum =>
      if amountNum ≤ 0 then bad
      else do
        let s ← sumAmounts fns rest
        .ok (amountNum + s)

/-- `BatchTokenSender.checkBalances`. -/
def checkBalances (cfg : BatchConfig) (fns : EthersFns) (ti : TokenInfo)
    (chain : ChainEnv) (recipients : List Recipient) : Except String BalanceCheck :=
  match sumAmounts fns recipients with
  | .error e => .error e
  | .ok totalAmount =>
    match fns.parseUnitsQ totalAmount ti.decimals with
    | .error e => .error e
    | .ok totalAmountWei =>
      match estimateGasForBatch cfg fns ti chain recipients with
      | .error e => .error e
      | .ok gasEstimate =>
        .ok { maticBalance := formatEtherQ chain.nativeBalance,
              tokenBalance := (chain.tokenBalance : ℚ) / (10 ^ ti.decimals : ℚ),
              sufficientMatic := decide (gasEstimate.gasCostMatic ≤
                formatEtherQ chain.nativeBalance),
              sufficientToken := decide (totalAmountWei ≤ chain.tokenBalance),
              estimatedGasCost := gasEstimate.gasCostMatic }

/-- `BatchReport.summary` (derived totals as exact rationals). -/
structure BatchReportSummary where
  totalRecipients : Nat
  successful : Nat
  failed : Nat
  totalAmountSent : ℚ
  totalGasCostMatic : ℚ
deriving Repr, DecidableEq

/-- The persisted batch report. -/
structure BatchReport where
  summary : BatchReportSummary
  transfers : List TransferResult
  failed : List TransferResult
  dryRun : Bool
deriving Repr, DecidableEq

/-- `BatchTokenSender.generateReport` (processing time / static metadata
strings dropped; `parseFloat` of a validated amount is its rational value,
with 0 for an unparseable one, mirroring `parseFloat(x || '0')` fallbacks). -/
def generateReport (cfg : BatchConfig) (fns : EthersFns)
    (results : List TransferResult) : BatchReport :=
  let successful := results.filter fun r => r.status == .success
  let failed := results.filter fun r => r.status == .failed
  { summary :=
      { totalRecipients := results.length,
        successful := successful.length,
        failed := failed.length,
        totalAmountSent := successful.foldl (fun s r => s + ((fns.parseFloatQ r.amount).getD 0)) 0,
        totalGasCostMatic := successful.foldl (fun s r => s + r.gasCostMatic.getD 0) 0 },
    transfers := results, failed := failed, dryRun := cfg.dryRun }

/-- `BatchTokenSender.executeBatch`: validate, fetch token info, preflight
balances, then run the transfers and build the report.  The second component
is the full list of broadcast transactions (empty whenever the run aborts in
preflight). -/
def executeBatch (cfg : BatchConfig) (fns : EthersFns)
    (tiRes : Except String TokenInfo) (chain : ChainEnv)
    (recipients : List Recipient) : Except String BatchReport × List TxRequest :=
  let wrap := fun (e : String) => "Batch execution failed: " ++ e
  match validateRecipients fns recipients with
  | .error e => (.error (wrap e), [])
  | .ok validatedRecipients =>
    match tiRes with
    | .error e => (.error (wrap e), [])
    | .ok ti =>
      match checkBalances cfg fns ti chain validatedRecipients with
      | .error e => (.error (wrap e), [])
      | .ok balanceCheck =>
        if !balanceCheck.sufficientToken then
          (.error (wrap ("Insufficient token balance. Required: " ++
            toString (validatedRecipients.foldl
              (fun s r => s + ((fns.parseFloatQ r.amount).getD 0)) 0) ++ " " ++ ti.symbol ++
            ", Available: " ++ toString balanceCheck.tokenBalance)), [])
        else if !balanceCheck.sufficientMatic then
          (.error (wrap ("Insufficient MATIC balance for gas. Required: " ++
            toString balanceCheck.estimatedGasCost ++ " MATIC, Available: " ++
            toString balanceCheck.maticBalance)), [])
        else
          match executeBatchTransfers cfg fns (.ok ti) chain.attempts chain.txCount
              validatedRecipients with
          | .error e => (.error (wrap e), [])
          | .ok tr => (.ok (generateReport cfg fns tr.results), tr.broadcasts)

/-! ### `BatchReportManager.saveFailedTransfers` -/

/-- Serialisation of a `TransferResult` into the `failedDetails` entry
(`JSON.stringify` omits `undefined` fields, so only set options appear;
numeric strings keep their string rendering). -/
def resultToJson (t : TransferResult) : Json :=
  .obj
    ([("recipient", Json.str t.recipient), ("amount", Json.str t.amount),
      ("status", Json.str (match t.status with
        | .success => "success"
        | .failed => "failed"))] ++
     (match t.txHash with | some h => [("txHash", Json.str h)] | none => []) ++
     (match t.blockNumber with | some b => [("blockNumber", Json.num b)] | none => []) ++
     (match t.gasUsed with | some g => [("gasUsed", Json.str (toString g))] | none => []) ++
     (match t.gasCostMatic with
      | some g => [("gasCostMatic", Json.str (toString g))] | none => []) ++
     (match t.error with | some e => [("error", Json.str e)] | none => []) ++
     (match t.attempts with | some a => [("attempts", Json.num a)] | none => []))

/-- `BatchReportManager.saveFailedTransfers`: the JSON document written to
`failed_transfers_<token>_<timestamp>.json` (`none` when there is nothing to
save and the method returns early).  `generatedAt` is the caller-observed
timestamp string. -/
def saveFailedTransfersJson (failedTransfers : List TransferResult)
    (tokenContract generatedAt : String) : Option Json :=
  if failedTransfers.length = 0 then none
  else
    let retryRecipients : List Json := failedTransfers.map fun transfer =>
      .obj [("address", .str transfer.recipient), ("amount", .str transfer.amount)]
    some (.obj
      [("metadata", .obj
        [("originalBatch", .str tokenContract),
         ("failedCount", .num failedTransfers.length),
         ("generatedAt", .str generatedAt),
         ("note", .str "This file contains failed transfers that can be retried")]),
       ("recipients", .arr retryRecipients),
       ("failedDetails", .arr (failedTransfers.map resultToJson))])

/-! ### RequestQueue (`src/utils/queue.ts`) -/

/-- `QueueConfig`. -/
structure QueueConfig where
  maxConcurrent : Nat
  rateLimitPerSecond : Nat
deriving Repr, DecidableEq

/-- How a queued operation's promise was settled. -/
inductive QOutcome where
  | resolved
  | rejectedByOp
  | rejectedCleared
deriving Repr, DecidableEq

/-- The observable state of a `RequestQueue`: the pending request ids in
submission order, the in-flight count, whether the dispatch interval is still
installed (`intervalId !== undefined`), the settlement log of each request's
promise, and the id source. -/
structure QueueState where
  queue : List Nat
  activeRequests : Nat
  running : Bool
  settled : List (Nat × QOutcome)
  nextId : Nat
deriving Repr, DecidableEq

/-- The state after `new RequestQueue(config)` (the constructor installs the
interval). -/
def initQueue : QueueState :=
  { queue := [], activeRequests := 0, running := true, settled := [], nextId := 0 }

/-- `enqueue`: create the pending promise and push the request; nothing else
happens until a dispatch tick. -/
def enqueue (s : QueueState) : QueueState × Nat :=
  ({ s with queue := s.queue ++ [s.nextId], nextId := s.nextId + 1 }, s.nextId)

/-- `processQueue`, one dispatch: honour the concurrency bound, shift the
head, run it and settle its promise (`opResult id` tells whether the
operation resolves or rejects; the transient `activeRequests++ / --` nets
out because the model runs the dispatched operation to settlement). -/
def processQueue (cfg : QueueConfig) (opResult : Nat → Bool) (s : QueueState) : QueueState :=
  if cfg.maxConcurrent ≤ s.activeRequests then s
  else
    match s.queue with
    | [] => s
    | id :: rest =>
      { s with queue := rest,
               settled := s.settled ++
                 [(id, if opResult id then QOutcome.resolved else QOutcome.rejectedByOp)] }

/-- One firing of the dispatch interval: it only runs while the interval is
installed. -/
def tick (cfg : QueueConfig) (opResult : Nat → Bool) (s : QueueState) : QueueState :=
  if s.running then processQueue cfg opResult s else s

/-- `clear`: reject every pending request with the queue-cleared error and
empty the queue. -/
def clearQueue (s : QueueState) : QueueState :=
  { s with settled := s.settled ++ s.queue.map fun id => (id, QOutcome.rejectedCleared),
           queue := [] }

/-- `destroy`: tear down the interval, then `clear()`. -/
def destroy (s : QueueState) : QueueState :=
  clearQueue { s with running := false }

/-- The settlement recorded for a request's promise, if any. -/
def settledOutcome (s : QueueState) (id : Nat) : Option QOutcome :=
  s.settled.lookup id

/-! ### `EtherscanClient.makeRequest` response handling -/

/-- `Array.isArray(result) && result.length === 0`. -/
def isEmptyArrayResult : Json → Bool
  | .arr [] => true
  | _ => false

/-- The status/message handling of one HTTP round-trip inside
`EtherscanClient.makeRequest`: a status-`"0"` response is a valid empty
result when it carries a recognised no-data sentinel message or an empty
result list, and an application error otherwise. -/
def handleResponse (status message : String) (result : Json) : Except String Json :=
  if status == "0" then
    if message == "No transactions found" || message == "OK" || isEmptyArrayResult result then
      .ok result
    else
      .error ("API Error: " ++ message)
  else
    .ok result

/-! ### Concrete instantiations used by the closed witnesses -/

/-- ASCII upper-casing of one character (kernel-reducible). -/
def upperChar (c : Char) : Char :=
  if 'a' ≤ c ∧ c ≤ 'z' then Char.ofNat (c.toNat - 32) else c

/-- ASCII upper-casing of a string (kernel-reducible). -/
def upperStr (s : String) : String := String.mk (s.data.map upperChar)

/-- A concrete operation for the C3 witness: attempts 1 and 2 fail, attempt
3 succeeds. -/
def retryDemoFn : Nat → Except String Nat :=
  fun i => if i ≤ 2 then .error ("boom " ++ toString i) else .ok 42

/-- A concrete always-failing operation for the C3 witness. -/
def retryDemoFailFn : Nat → Except String Nat :=
  fun i => .error ("boom " ++ toString i)

/-- A concrete instantiation of the external ethers.js helpers used by the
closed witnesses: addresses are checksummed by upper-casing, amounts parse
to their length. -/
def demoFns : EthersFns :=
  { isAddress := fun s => ['0', 'x'].isPrefixOf s.data,
    getAddress := upperStr,
    parseFloatQ := fun s => if s.length = 0 then none else some (s.length : ℚ),
    parseUnitsStr := fun s d => .ok (s.length * 10 ^ d),
    parseUnitsQ := fun q d => .ok (q * (10 : ℚ) ^ d).floor.toNat }

/-- Token info used by the closed witnesses. -/
def demoToken : TokenInfo :=
  { address := "0xToken", symbol := "TOK", name := "Token", decimals := 2,
    totalSupply := "1000000" }

/-- Batch configuration used by the closed witnesses (constructor defaults). -/
def demoCfg : BatchConfig := { tokenContract := "0xToken" }

/-- A provider behaviour where everything succeeds. -/
def okOutcome : AttemptOutcome :=
  { estimateGas := .ok 21000, feeGasPrice := some 100, populate := .ok (),
    sendTx := .ok "0xhash", waitReceipt := .ok ⟨"0xhash", 123, 21000⟩ }

/-- A provider behaviour where gas estimation rejects. -/
def estimateFailOutcome : AttemptOutcome :=
  { estimateGas := .error "gas estimation failed", feeGasPrice := some 100,
    populate := .ok (), sendTx := .error "unreachable", waitReceipt := .error "unreachable" }

/-- Three concrete recipients. -/
def demoRecipients3 : List Recipient :=
  [{ address := "0xAAA", amount := "5" }, { address := "0xBBB", amount := "6" },
   { address := "0xCCC", amount := "7" }]

/-- Invocation oracle for the success/failed/success batch run: the second
`executeTransfer` invocation hits the gas-estimation failure. -/
def demoEnvSFS : Nat → AttemptOutcome :=
  fun k => if k = 1 then estimateFailOutcome else okOutcome

/-- A pending-nonce oracle starting every batch at 40. -/
def demoTxCount : Nat → Nat := fun _ => 40

/-- A chain whose token balance (100 base units) is below the demo batch's
total of 200 base units. -/
def demoChainPoor : ChainEnv :=
  { attempts := fun _ => okOutcome, txCount := demoTxCount,
    nativeBalance := 10 ^ 20, tokenBalance := 100,
    batchEstimateGas := .ok 21000, batchFeeGasPrice := some 100 }

/-- Two concrete failed transfer outcomes. -/
def demoFailedTransfers : List TransferResult :=
  [{ recipient := "0xAAA", amount := "25", status := .failed,
     error := some "insufficient funds", attempts := some 4 },
   { recipient := "0xBBB", amount := "7", status := .failed,
     error := some "nonce too low" }]

/-- The number of `success` outcomes in a result list. -/
def successCount (l : List TransferResult) : Nat :=
  (l.filter fun t => t.status == .success).length

/-- A provider on which gas estimation always rejects. -/
def demoEnvEstFail : Nat → AttemptOutcome := fun _ => estimateFailOutcome

/-- A single concrete recipient. -/
def demoRecipients1 : List Recipient := [{ address := "0xAAA", amount := "5" }]

/-- Two concrete recipients. -/
def demoRecipients2 : List Recipient :=
  [{ address := "0xAAA", amount := "5" }, { address := "0xBBB", amount := "6" }]

/-- The demo helpers with an `ethers.parseUnits` that rejects the amount
string. -/
def demoFnsBadParse : EthersFns :=
  { demoFns with parseUnitsStr := fun _ _ => .error "invalid decimal value" }

/-- The demo helpers with a smallest-unit conversion fixed at 200 base
units. -/
def demoFnsWei200 : EthersFns :=
  { demoFns with parseUnitsQ := fun _ _ => .ok 200 }

/-! ## Theorems -/

/-- If every attempt from `attempt` up to `m` fails and attempt `m + 1`
succeeds within the cap, the loop returns the success value after exactly
`m + 1` invocations. -/
theorem retryGo_ok_of_failures (maxRetries : Nat) (context : Option String)
    (fn : Nat → Except ε α) :
    ∀ fuel attempt m v, attempt + fuel = maxRetries + 1 → 1 ≤ attempt →
      attempt ≤ m + 1 → m + 1 ≤ maxRetries →
      (∀ i, attempt ≤ i → i ≤ m → ∃ e, fn i = .error e) →
      fn (m + 1) = .ok v →
      retryGo maxRetries context fn attempt fuel = .ok v (m + 1) := by
  intro fuel
  induction fuel with
  | zero => intro attempt m v hsum h1 h2 h3 _ _; omega
  | succ fuel ih =>
    intro attempt m v hsum h1 h2 h3 hfail hok
    by_cases heq : attempt = m + 1
    · subst heq
      simp [retryGo, hok]
    · have hlt : attempt ≤ m := by omega
      obtain ⟨e, he⟩ := hfail attempt le_rfl hlt
      have hne : attempt ≠ maxRetries := by omega
      simp only [retryGo, he, if_neg hne]
      exact ih (attempt + 1) m v (by omega) (by omega) (by omega) h3
        (fun i hi1 hi2 => hfail i (by omega) hi2) hok

/-- If every attempt from `attempt` through the cap fails, the loop throws
the retry-exhausted wrapper carrying the last error after exactly
`maxRetries` invocations. -/
theorem retryGo_exhausted_of_failures (maxRetries : Nat) (context : Option String)
    (fn : Nat → Except ε α) (es : Nat → ε) :
    ∀ fuel attempt, attempt + fuel = maxRetries + 1 → 1 ≤ attempt →
      attempt ≤ maxRetries →
      (∀ i, attempt ≤ i → i ≤ maxRetries → fn i = .error (es i)) →
      retryGo maxRetries context fn attempt fuel =
        .exhausted ⟨retryErrorMessage maxRetries context, es maxRetries,
                    maxRetries, maxRetries⟩ maxRetries := by
  intro fuel
  induction fuel with
  | zero => intro attempt hsum h1 h2 _; omega
  | succ fuel ih =>
    intro attempt hsum h1 h2 hfail
    have he := hfail attempt le_rfl h2
    by_cases heq : attempt = maxRetries
    · subst heq
      simp [retryGo, he]
    · simp only [retryGo, he, if_neg heq]
      exact ih (attempt + 1) (by omega) (by omega) (by omega)
        (fun i hi1 hi2 => hfail i (by omega) hi2)

/-- C3: with an attempt cap of at least 1, an operation that fails exactly
`m < maxAttempts` times and then succeeds makes `executeWithRetry` return the
success value after exactly `m + 1` invocations; an operation that fails on
every attempt is invoked exactly `maxAttempts` times, after which the
retry-exhausted error carrying the last underlying error and the attempt
count is raised and the operation is never invoked again.  Both parts hold
for arbitrary failures: the attempt loop never consults the transient-error
classifier. -/
theorem executeWithRetry_attempt_semantics (cfg : RetryConfig)
    (context : Option String) (fn : Nat → Except ε α)
    (hmax : 1 ≤ cfg.maxRetries) :
    (∀ m v, m < cfg.maxRetries →
      (∀ i, 1 ≤ i → i ≤ m → ∃ e, fn i = .error e) →
      fn (m + 1) = .ok v →
      executeWithRetry cfg context fn = .ok v (m + 1)) ∧
    (∀ es : Nat → ε,
      (∀ i, 1 ≤ i → i ≤ cfg.maxRetries → fn i = .error (es i)) →
      executeWithRetry cfg context fn =
        .exhausted ⟨retryErrorMessage cfg.maxRetries context, es cfg.maxRetries,
                    cfg.maxRetries, cfg.maxRetries⟩ cfg.maxRetries) := by
  constructor
  · intro m v hm hfail hok
    exact retryGo_ok_of_failures cfg.maxRetries context fn cfg.maxRetries 1 m v
      (by omega) le_rfl (by omega) (by omega) (fun i h1 h2 => hfail i h1 h2) hok
  · intro es hfail
    exact retryGo_exhausted_of_failures cfg.maxRetries context fn es cfg.maxRetries 1
      (by omega) le_rfl hmax hfail

/-- Witness for C3 at `maxRetries = 3`: two failures then success yields the
value after 3 invocations, and an always-failing operation is stopped at
exactly 3 invocations with the wrapped last error. -/
theorem executeWithRetry_attempt_semantics_witness :
    executeWithRetry ⟨3, 100, 1000, 2⟩ (some "op") retryDemoFn = .ok 42 3 ∧
    executeWithRetry ⟨3, 100, 1000, 2⟩ (some "op") retryDemoFailFn =
      .exhausted ⟨retryErrorMessage 3 (some "op"), "boom 3", 3, 3⟩ 3 := by
  constructor
  · exact (executeWithRetry_attempt_semantics ⟨3, 100, 1000, 2⟩ (some "op") retryDemoFn
      (by decide)).1 2 42 (by decide)
      (fun i h1 h2 => ⟨"boom " ++ toString i, by
        have : i = 1 ∨ i = 2 := by omega
        rcases this with h | h <;> subst h <;> rfl⟩) rfl
  · exact (executeWithRetry_attempt_semantics ⟨3, 100, 1000, 2⟩ (some "op") retryDemoFailFn
      (by decide)).2 (fun i => "boom " ++ toString i) (fun i h1 h2 => rfl)

/-- C7: a non-success (status `"0"`) explorer response that signals "no
records" — either through an empty result list or through one of the
recognised sentinel success messages — is returned as a valid result, not an
error; every other non-success response fails with the application error
carrying the response's message. -/
theorem handleResponse_no_records_vs_error :
    (∀ message : String, handleResponse "0" message (Json.arr []) = .ok (Json.arr [])) ∧
    (∀ result : Json,
      handleResponse "0" "No transactions found" result = .ok result ∧
      handleResponse "0" "OK" result = .ok result) ∧
    (∀ (message : String) (result : Json),
      message ≠ "No transactions found" → message ≠ "OK" →
      isEmptyArrayResult result = false →
      handleResponse "0" message result = .error ("API Error: " ++ message)) := by
  refine ⟨fun message => ?_, fun result => ⟨?_, ?_⟩, fun message result h1 h2 h3 => ?_⟩
  · simp [handleResponse, isEmptyArrayResult]
  · simp [handleResponse]
  · simp [handleResponse]
  · simp [handleResponse, h1, h2, h3]

/-- Witness for C7: an empty-array status-`"0"` response and the two
sentinel messages come back as valid results, while an unrecognised failure
message becomes the application error. -/
theorem handleResponse_no_records_vs_error_witness :
    handleResponse "0" "NOTOK" (Json.arr []) = .ok (Json.arr []) ∧
    handleResponse "0" "No transactions found" (Json.str "No transactions found") =
      .ok (Json.str "No transactions found") ∧
    handleResponse "0" "NOTOK" (Json.str "Max rate limit reached") =
      .error "API Error: NOTOK" := by
  refine ⟨handleResponse_no_records_vs_error.1 "NOTOK",
    (handleResponse_no_records_vs_error.2.1 (Json.str "No transactions found")).1,
    handleResponse_no_records_vs_error.2.2 "NOTOK" (Json.str "Max rate limit reached")
      (by decide) (by decide) rfl⟩

/-- `executeTransfer` when gas estimation rejects: the error is caught. -/
theorem executeTransfer_estimate_error (cfg : BatchConfig) (fns : EthersFns)
    (ti : TokenInfo) (r : Recipient) (nonce : Nat) (o : AttemptOutcome)
    (amount : Nat) (e : String)
    (hp : fns.parseUnitsStr r.amount ti.decimals = .ok amount)
    (hest : o.estimateGas = .error e) :
    executeTransfer cfg fns (.ok ti) r nonce o = (.ok (failedResult r e), []) := by
  simp [executeTransfer, hp, hest]

/-- `executeTransfer` when transaction building rejects: the error is caught. -/
theorem executeTransfer_populate_error (cfg : BatchConfig) (fns : EthersFns)
    (ti : TokenInfo) (r : Recipient) (nonce : Nat) (o : AttemptOutcome)
    (amount g : Nat) (e : String)
    (hp : fns.parseUnitsStr r.amount ti.decimals = .ok amount)
    (hest : o.estimateGas = .ok g) (hpop : o.populate = .error e) :
    executeTransfer cfg fns (.ok ti) r nonce o = (.ok (failedResult r e), []) := by
  simp [executeTransfer, hp, hest, hpop]

/-- `executeTransfer` in dry-run mode with estimation and build succeeding:
a synthetic success with the placeholder hash, no broadcast. -/
theorem executeTransfer_dry_run (cfg : BatchConfig) (fns : EthersFns)
    (ti : TokenInfo) (r : Recipient) (nonce : Nat) (o : AttemptOutcome)
    (amount g : Nat)
    (hp : fns.parseUnitsStr r.amount ti.decimals = .ok amount)
    (hest : o.estimateGas = .ok g) (hpop : o.populate = .ok ())
    (hdr : cfg.dryRun = true) :
    executeTransfer cfg fns (.ok ti) r nonce o =
      (.ok { recipient := r.address, amount := r.amount, status := .success,
             txHash := some mockTxHash,
             gasUsed := some (((g : ℚ) * cfg.gasLimitMultiplier).floor.toNat),
             gasCostMatic := some (formatEtherQ ((((g : ℚ) * cfg.gasLimitMultiplier).floor.toNat) *
               (o.feeGasPrice.getD gweiFallback))) }, []) := by
  simp [executeTransfer, hp, hest, hpop, hdr]

/-- `executeTransfer` when the broadcast itself rejects: the error is caught
(the attempted transaction is still recorded in the broadcast list). -/
theorem executeTransfer_send_error (cfg : BatchConfig) (fns : EthersFns)
    (ti : TokenInfo) (r : Recipient) (nonce : Nat) (o : AttemptOutcome)
    (amount g : Nat) (e : String)
    (hp : fns.parseUnitsStr r.amount ti.decimals = .ok amount)
    (hest : o.estimateGas = .ok g) (hpop : o.populate = .ok ())
    (hdr : cfg.dryRun = false) (hsend : o.sendTx = .error e) :
    executeTransfer cfg fns (.ok ti) r nonce o =
      (.ok (failedResult r e),
       [{ toAddr := r.address, amount := amount,
          gasLimit := ((g : ℚ) * cfg.gasLimitMultiplier).floor.toNat,
          gasPrice := o.feeGasPrice.getD gweiFallback, nonce := nonce }]) := by
  simp [executeTransfer, hp, hest, hpop, hdr, hsend]

/-- `executeTransfer` when confirmation fails with a rate-limit signal after
a successful broadcast: recorded as a success carrying the hash but no block
number. -/
theorem executeTransfer_wait_rate_limited (cfg : BatchConfig) (fns : EthersFns)
    (ti : TokenInfo) (r : Recipient) (nonce : Nat) (o : AttemptOutcome)
    (amount g : Nat) (txHash e : String)
    (hp : fns.parseUnitsStr r.amount ti.decimals = .ok amount)
    (hest : o.estimateGas = .ok g) (hpop : o.populate = .ok ())
    (hdr : cfg.dryRun = false) (hsend : o.sendTx = .ok txHash)
    (hwait : o.waitReceipt = .error e) (hrl : isRateLimitMessage e = true) :
    executeTransfer cfg fns (.ok ti) r nonce o =
      (.ok { recipient := r.address, amount := r.amount, status := .success,
             txHash := some txHash, blockNumber := none,
             gasUsed := some (((g : ℚ) * cfg.gasLimitMultiplier).floor.toNat),
             gasCostMatic := some (formatEtherQ ((((g : ℚ) * cfg.gasLimitMultiplier).floor.toNat) *
               (o.feeGasPrice.getD gweiFallback))) },
       [{ toAddr := r.address, amount := amount,
          gasLimit := ((g : ℚ) * cfg.gasLimitMultiplier).floor.toNat,
          gasPrice := o.feeGasPrice.getD gweiFallback, nonce := nonce }]) := by
  simp [executeTransfer, hp, hest, hpop, hdr, hsend, hwait, hrl]

/-- `executeTransfer` when confirmation fails for any non-rate-limit reason:
the error is rethrown and caught by the outer handler as a failure. -/
theorem executeTransfer_wait_error (cfg : BatchConfig) (fns : EthersFns)
    (ti : TokenInfo) (r : Recipient) (nonce : Nat) (o : AttemptOutcome)
    (amount g : Nat) (txHash e : String)
    (hp : fns.parseUnitsStr r.amount ti.decimals = .ok amount)
    (hest : o.estimateGas = .ok g) (hpop : o.populate = .ok ())
    (hdr : cfg.dryRun = false) (hsend : o.sendTx = .ok txHash)
    (hwait : o.waitReceipt = .error e) (hrl : isRateLimitMessage e = false) :
    executeTransfer cfg fns (.ok ti) r nonce o =
      (.ok (failedResult r e),
       [{ toAddr := r.address, amount := amount,
          gasLimit := ((g : ℚ) * cfg.gasLimitMultiplier).floor.toNat,
          gasPrice := o.feeGasPrice.getD gweiFallback, nonce := nonce }]) := by
  simp [executeTransfer, hp, hest, hpop, hdr, hsend, hwait, hrl]

/-- `executeTransfer` on the fully successful path. -/
theorem executeTransfer_confirmed (cfg : BatchConfig) (fns : EthersFns)
    (ti : TokenInfo) (r : Recipient) (nonce : Nat) (o : AttemptOutcome)
    (amount g : Nat) (txHash : String) (receipt : Receipt)
    (hp : fns.parseUnitsStr r.amount ti.decimals = .ok amount)
    (hest : o.estimateGas = .ok g) (hpop : o.populate = .ok ())
    (hdr : cfg.dryRun = false) (hsend : o.sendTx = .ok txHash)
    (hwait : o.waitReceipt = .ok receipt) :
    executeTransfer cfg fns (.ok ti) r nonce o =
      (.ok { recipient := r.address, amount := r.amount, status := .success,
             txHash := some receipt.hash, blockNumber := some receipt.blockNumber,
             gasUsed := some receipt.gasUsed,
             gasCostMatic := some (formatEtherQ (receipt.gasUsed *
               (o.feeGasPrice.getD gweiFallback))) },
       [{ toAddr := r.address, amount := amount,
          gasLimit := ((g : ℚ) * cfg.gasLimitMultiplier).floor.toNat,
          gasPrice := o.feeGasPrice.getD gweiFallback, nonce := nonce }]) := by
  simp [executeTransfer, hp, hest, hpop, hdr, hsend, hwait]

/-- C9: given a token info and a parsed amount (the only values read outside
the try/catch), `executeTransfer` always returns a result rather than
throwing: the result is `failed` exactly when gas estimation, transaction
building, broadcast, or a non-rate-limit confirmation wait failed, and in
that case it carries the text of the error that occurred; every other path
returns a `success` result. -/
theorem executeTransfer_total (cfg : BatchConfig) (fns : EthersFns)
    (ti : TokenInfo) (r : Recipient) (nonce : Nat) (o : AttemptOutcome)
    (amount : Nat)
    (hp : fns.parseUnitsStr r.amount ti.decimals = .ok amount) :
    ∃ result : TransferResult,
      (executeTransfer cfg fns (.ok ti) r nonce o).1 = .ok result ∧
      (result.status = .failed ↔
        ((∃ e, o.estimateGas = .error e) ∨ (∃ e, o.populate = .error e) ∨
         (cfg.dryRun = false ∧ ((∃ e, o.sendTx = .error e) ∨
           (∃ e, o.waitReceipt = .error e ∧ isRateLimitMessage e = false))))) ∧
      (result.status = .failed → ∃ e, result = failedResult r e ∧
         (o.estimateGas = .error e ∨ o.populate = .error e ∨ o.sendTx = .error e ∨
          o.waitReceipt = .error e)) := by
  rcases hest : o.estimateGas with e | g
  · refine ⟨failedResult r e, ?_, ?_, ?_⟩
    · rw [executeTransfer_estimate_error cfg fns ti r nonce o amount e hp hest]
    · simp [failedResult, hest]
    · exact fun _ => ⟨e, rfl, Or.inl rfl⟩
  · rcases hpop : o.populate with e | u
    · refine ⟨failedResult r e, ?_, ?_, ?_⟩
      · rw [executeTransfer_populate_error cfg fns ti r nonce o amount g e hp hest hpop]
      · simp [failedResult, hest, hpop]
      · exact fun _ => ⟨e, rfl, Or.inr (Or.inl rfl)⟩
    · cases u
      rcases hdr : cfg.dryRun with _ | _
      · rcases hsend : o.sendTx with e | txHash
        · refine ⟨failedResult r e, ?_, ?_, ?_⟩
          · rw [executeTransfer_send_error cfg fns ti r nonce o amount g e hp hest hpop hdr hsend]
          · simp [failedResult, hest, hpop, hdr, hsend]
          · exact fun _ => ⟨e, rfl, Or.inr (Or.inr (Or.inl rfl))⟩
        · rcases hwait : o.waitReceipt with e | receipt
          · rcases hrl : isRateLimitMessage e with _ | _
            · refine ⟨failedResult r e, ?_, ?_, ?_⟩
              · rw [executeTransfer_wait_error cfg fns ti r nonce o amount g txHash e hp hest
                  hpop hdr hsend hwait hrl]
              · simp [failedResult, hest, hpop, hdr, hsend, hwait, hrl]
              · exact fun _ => ⟨e, rfl, Or.inr (Or.inr (Or.inr rfl))⟩
            · exact ⟨_, congrArg Prod.fst (executeTransfer_wait_rate_limited cfg fns ti r nonce
                  o amount g txHash e hp hest hpop hdr hsend hwait hrl),
                by simp [hest, hpop, hdr, hsend, hwait, hrl],
                by intro hcon; simp at hcon⟩
          · exact ⟨_, congrArg Prod.fst (executeTransfer_confirmed cfg fns ti r nonce o amount
                g txHash receipt hp hest hpop hdr hsend hwait),
              by simp [hest, hpop, hdr, hsend, hwait],
              by intro hcon; simp at hcon⟩
      · exact ⟨_, congrArg Prod.fst (executeTransfer_dry_run cfg fns ti r nonce o amount g hp
            hest hpop hdr),
          by simp [hest, hpop, hdr],
          by intro hcon; simp at hcon⟩

/-- Witness for C9: a broadcast rejection is caught and reported as a failed
result carrying the rejection text. -/
theorem executeTransfer_total_witness :
    ∃ result : TransferResult,
      (executeTransfer demoCfg demoFns (.ok demoToken)
        { address := "0xAAA", amount := "5" } 7
        { estimateGas := .ok 21000, feeGasPrice := some 100, populate := .ok (),
          sendTx := .error "insufficient funds for gas", waitReceipt := .error "never" }).1 =
        .ok result ∧
      (result.status = .failed ↔
        ((∃ e, (Except.ok 21000 : Except String Nat) = .error e) ∨
         (∃ e, (Except.ok () : Except String Unit) = .error e) ∨
         (demoCfg.dryRun = false ∧
           ((∃ e, (Except.error "insufficient funds for gas" : Except String String) = .error e) ∨
            (∃ e, (Except.error "never" : Except String Receipt) = .error e ∧
              isRateLimitMessage e = false))))) ∧
      (result.status = .failed → ∃ e,
        result = failedResult { address := "0xAAA", amount := "5" } e ∧
        ((Except.ok 21000 : Except String Nat) = .error e ∨
         (Except.ok () : Except String Unit) = .error e ∨
         (Except.error "insufficient funds for gas" : Except String String) = .error e ∨
         (Except.error "never" : Except String Receipt) = .error e)) :=
  executeTransfer_total demoCfg demoFns demoToken
    { address := "0xAAA", amount := "5" } 7
    { estimateGas := .ok 21000, feeGasPrice := some 100, populate := .ok (),
      sendTx := .error "insufficient funds for gas", waitReceipt := .error "never" }
    100 rfl

/-- C8: when the transaction is broadcast successfully but the confirmation
wait fails with a rate-limit message, the transfer is recorded as a success
carrying the transaction hash and no confirmed block number — not as a
failure. -/
theorem rateLimited_confirmation_is_success (cfg : BatchConfig) (fns : EthersFns)
    (ti : TokenInfo) (r : Recipient) (nonce : Nat) (o : AttemptOutcome)
    (amount g : Nat) (txHash e : String)
    (hp : fns.parseUnitsStr r.amount ti.decimals = .ok amount)
    (hest : o.estimateGas = .ok g) (hpop : o.populate = .ok ())
    (hdr : cfg.dryRun = false) (hsend : o.sendTx = .ok txHash)
    (hwait : o.waitReceipt = .error e) (hrl : isRateLimitMessage e = true) :
    ∃ result : TransferResult,
      (executeTransfer cfg fns (.ok ti) r nonce o).1 = .ok result ∧
      result.status = .success ∧ result.txHash = some txHash ∧
      result.blockNumber = none ∧ result.error = none := by
  exact ⟨_, congrArg Prod.fst (executeTransfer_wait_rate_limited cfg fns ti r nonce o amount g
      txHash e hp hest hpop hdr hsend hwait hrl), rfl, rfl, rfl, rfl⟩

/-- Witness for C8 at a concrete rate-limited confirmation failure. -/
theorem rateLimited_confirmation_is_success_witness :
    ∃ result : TransferResult,
      (executeTransfer demoCfg demoFns (.ok demoToken)
        { address := "0xBBB", amount := "5" } 3
        { estimateGas := .ok 21000, feeGasPrice := some 100, populate := .ok (),
          sendTx := .ok "0xdeadbeef",
          waitReceipt := .error "Too many requests, slow down" }).1 = .ok result ∧
      result.status = .success ∧ result.txHash = some "0xdeadbeef" ∧
      result.blockNumber = none ∧ result.error = none :=
  rateLimited_confirmation_is_success demoCfg demoFns demoToken
    { address := "0xBBB", amount := "5" } 3
    { estimateGas := .ok 21000, feeGasPrice := some 100, populate := .ok (),
      sendTx := .ok "0xdeadbeef", waitReceipt := .error "Too many requests, slow down" }
    100 21000 "0xdeadbeef" "Too many requests, slow down" rfl rfl rfl rfl rfl rfl (by decide)

/-- C5 (code evidence): after `destroy()`, `enqueue` still pushes the new
request onto the pending queue, and — the dispatch interval having been torn
down — no number of subsequent timer firings ever settles that request's
promise, for any scheduler policy and any operation behaviour. -/
theorem enqueue_after_destroy_never_settles (cfg : QueueConfig)
    (opResult : Nat → Bool) (n : Nat) :
    (enqueue (destroy initQueue)).2 ∈ (enqueue (destroy initQueue)).1.queue ∧
    settledOutcome ((tick cfg opResult)^[n] (enqueue (destroy initQueue)).1)
      (enqueue (destroy initQueue)).2 = none := by
  constructor
  · simp [enqueue, destroy, clearQueue, initQueue]
  · have hfix : tick cfg opResult (enqueue (destroy initQueue)).1 =
        (enqueue (destroy initQueue)).1 := by
      simp [tick, enqueue, destroy, clearQueue, initQueue]
    rw [Function.iterate_fixed hfix]
    simp [settledOutcome, enqueue, destroy, clearQueue, initQueue]

/-- C1 (code evidence): the generated failed-transfers document does carry
the `{address, amount}` pairs of the failed outcomes, in order, under its
`recipients` key — but the document itself is a JSON *object*, so feeding it
back to `loadRecipientsFromJson` unchanged is rejected with the
array-expected error instead of yielding those pairs. -/
theorem failedTransfersFile_rejected_on_reload :
    ∃ fileJson : Json,
      saveFailedTransfersJson demoFailedTransfers "0xToken" "2026-10-11T00-00-00Z" =
        some fileJson ∧
      fileJson.getField "recipients" =
        some (.arr [.obj [("address", .str "0xAAA"), ("amount", .str "25")],
                    .obj [("address", .str "0xBBB"), ("amount", .str "7")]]) ∧
      loadRecipientsFromJson demoFns "failed.json" fileJson =
        .error ("Failed to load recipients from failed.json: " ++
          "JSON file must contain an array of recipients") := by
  exact ⟨_, rfl, rfl, rfl⟩

/-- An accepted validation run rewrites each address to its checksummed form
and keeps each amount, preserving order and length. -/
theorem validateRecipientsGo_ok_shape (fns : EthersFns) :
    ∀ (rs : List Recipient) (seen : List String) (out : List Recipient),
      validateRecipientsGo fns rs seen = .ok out →
      out = rs.map fun r => { address := fns.getAddress r.address, amount := r.amount } := by
  intro rs
  induction rs with
  | nil =>
    intro seen out h
    simp only [validateRecipientsGo, Except.ok.injEq] at h
    simp [← h]
  | cons r rest ih =>
    intro seen out h
    rcases h1 : fns.isAddress r.address with _ | _
    · simp [validateRecipientsGo, h1] at h
    · by_cases h2 : fns.getAddress r.address ∈ seen
      · simp [validateRecipientsGo, h1, h2] at h
      · rcases h3 : fns.parseFloatQ r.amount with _ | q
        · simp [validateRecipientsGo, h1, h2, h3] at h
        · by_cases h4 : q ≤ 0
          · simp [validateRecipientsGo, h1, h2, h3, h4] at h
          · rcases h5 : validateRecipientsGo fns rest (fns.getAddress r.address :: seen)
              with e | v
            · simp only [validateRecipientsGo, h1, Bool.not_true, Bool.false_eq_true,
                if_false, h3, h5] at h
              rw [if_neg (by simpa using h2), if_neg h4] at h
              have h' : (Except.error e : Except String (List Recipient)) = .ok out := h
              cases h'
            · have hv := ih (fns.getAddress r.address :: seen) v h5
              simp only [validateRecipientsGo, h1, Bool.not_true, Bool.false_eq_true,
                if_false, h3, h5] at h
              rw [if_neg (by simpa using h2), if_neg h4] at h
              have h' : Except.ok ({ address := fns.getAddress r.address, amount := r.amount } :: v) = .ok out := h
              cases h'
              simp [hv]

/-- If every entry is individually valid but two checksummed addresses
collide (among themselves or with the already-seen set), validation stops
with the duplicate-address error. -/
theorem validateRecipientsGo_dup_error (fns : EthersFns) :
    ∀ (rs : List Recipient) (seen : List String),
      (∀ r ∈ rs, fns.isAddress r.address = true) →
      (∀ r ∈ rs, ∃ q, fns.parseFloatQ r.amount = some q ∧ 0 < q) →
      (¬ (rs.map fun r => fns.getAddress r.address).Nodup ∨
        ∃ r ∈ rs, fns.getAddress r.address ∈ seen) →
      ∃ a, validateRecipientsGo fns rs seen =
        .error ("Duplicate address found: " ++ a) := by
  intro rs
  induction rs with
  | nil =>
    intro seen _ _ hdup
    rcases hdup with h | ⟨r, hr, _⟩
    · simp at h
    · simp at hr
  | cons r rest ih =>
    intro seen haddr hamt hdup
    have h1 : fns.isAddress r.address = true := haddr r (List.mem_cons_self r rest)
    by_cases h2 : fns.getAddress r.address ∈ seen
    · exact ⟨fns.getAddress r.address, by simp [validateRecipientsGo, h1, h2]⟩
    · obtain ⟨q, hq, hqpos⟩ := hamt r (List.mem_cons_self r rest)
      have h4 : ¬ q ≤ 0 := not_le.mpr hqpos
      have hrec : ¬ (rest.map fun x => fns.getAddress x.address).Nodup ∨
          ∃ x ∈ rest, fns.getAddress x.address ∈ fns.getAddress r.address :: seen := by
        rcases hdup with h | ⟨x, hx, hxseen⟩
        · rw [List.map_cons, List.nodup_cons] at h
          push_neg at h
          by_cases hc : fns.getAddress r.address ∈ rest.map fun x => fns.getAddress x.address
          · obtain ⟨x, hx, hcx⟩ := List.mem_map.mp hc
            exact Or.inr ⟨x, hx, by rw [hcx]; exact List.mem_cons_self _ _⟩
          · exact Or.inl (h hc)
        · rcases List.mem_cons.mp hx with rfl | hx2
          · exact absurd hxseen h2
          · exact Or.inr ⟨x, hx2, List.mem_cons_of_mem _ hxseen⟩
      obtain ⟨a, ha⟩ := ih (fns.getAddress r.address :: seen)
        (fun x hx => haddr x (List.mem_cons_of_mem r hx))
        (fun x hx => hamt x (List.mem_cons_of_mem r hx)) hrec
      refine ⟨a, ?_⟩
      simp only [validateRecipientsGo, h1, Bool.not_true, Bool.false_eq_true, if_false,
        hq, ha]
      rw [if_neg (by simpa using h2), if_neg h4]
      rfl

/-- C10: if all entries of a recipient list pass the per-entry address and
amount checks but two of them normalise to the same checksummed address
(e.g. the same address in different letter case), `validateRecipients`
raises the duplicate-address error — deduplication operates on the
checksummed form; and any accepted list is returned in the input's order and
length with each address replaced by its checksummed form and each amount
string unchanged. -/
theorem validateRecipients_checksum_behaviour (fns : EthersFns) (rs : List Recipient) :
    ((∀ r ∈ rs, fns.isAddress r.address = true) →
     (∀ r ∈ rs, ∃ q, fns.parseFloatQ r.amount = some q ∧ 0 < q) →
     ¬ (rs.map fun r => fns.getAddress r.address).Nodup →
     ∃ a, validateRecipients fns rs = .error ("Duplicate address found: " ++ a)) ∧
    (∀ out, validateRecipients fns rs = .ok out →
     out = rs.map fun r => { address := fns.getAddress r.address, amount := r.amount }) := by
  constructor
  · intro haddr hamt hdup
    exact validateRecipientsGo_dup_error fns rs [] haddr hamt (Or.inl hdup)
  · intro out h
    exact validateRecipientsGo_ok_shape fns rs [] out h

/-- Witness for C10: `0xab` and `0xAB` collide after checksumming and are
rejected as duplicates, while a clean two-entry list is normalised in
order. -/
theorem validateRecipients_checksum_behaviour_witness :
    (∃ a, validateRecipients demoFns
        [{ address := "0xab", amount := "5" }, { address := "0xAB", amount := "7" }] =
      .error ("Duplicate address found: " ++ a)) ∧
    (validateRecipients demoFns
        [{ address := "0xab", amount := "5" }, { address := "0xcd", amount := "7" }] =
      .ok [{ address := "0XAB", amount := "5" }, { address := "0XCD", amount := "7" }]) := by
  constructor
  · exact (validateRecipients_checksum_behaviour demoFns
      [{ address := "0xab", amount := "5" }, { address := "0xAB", amount := "7" }]).1
      (by intro r hr; fin_cases hr <;> decide)
      (by intro r hr; fin_cases hr <;> exact ⟨_, rfl, by decide⟩)
      (by decide)
  · have hshape := (validateRecipients_checksum_behaviour demoFns
      [{ address := "0xab", amount := "5" }, { address := "0xcd", amount := "7" }]).2
    rfl

/-- The `transferSuccessful` flag recorded by the per-recipient block agrees
with the recorded result's status in every branch. -/
theorem processOne_succeeded_eq (cfg : BatchConfig) (fns : EthersFns)
    (tiRes : Except String TokenInfo) (env : Nat → AttemptOutcome)
    (r : Recipient) (nonce k : Nat) :
    (processOne cfg fns tiRes env r nonce k).succeeded =
      ((processOne cfg fns tiRes env r nonce k).result.status == .success) := by
  cases hrr : executeWithRetry (batchRetryConfig cfg) (some ("transfer to " ++ r.address))
      (fun attempt => (executeTransfer cfg fns tiRes r nonce (env (k + attempt - 1))).1) with
  | ok v n => simp [processOne, hrr]
  | exhausted re n =>
    simp [processOne, hrr]
    decide
  | noAttempt =>
    simp [processOne, hrr]
    decide

/-- `successCount` over a cons. -/
theorem successCount_cons (t : TransferResult) (l : List TransferResult) :
    successCount (t :: l) =
      (if t.status == .success then 1 else 0) + successCount l := by
  rcases h : t.status == TransferStatus.success with _ | _ <;>
    simp [successCount, List.filter, h, Nat.add_comm]

/-- Within one batch, the nonce passed to the `i`-th transfer is the batch's
starting nonce plus the number of earlier successes in that batch: the nonce
is bumped only after a success and a failure does not consume it. -/
theorem processBatchGo_nonce_invariant (cfg : BatchConfig) (fns : EthersFns)
    (tiRes : Except String TokenInfo) (env : Nat → AttemptOutcome) :
    ∀ (batch : List Recipient) (nonce k : Nat),
      (processBatchGo cfg fns tiRes env batch nonce k).2.1.length =
        (processBatchGo cfg fns tiRes env batch nonce k).1.length ∧
      ∀ i (hi : i < (processBatchGo cfg fns tiRes env batch nonce k).2.1.length),
        (processBatchGo cfg fns tiRes env batch nonce k).2.1.get ⟨i, hi⟩ =
          nonce + successCount ((processBatchGo cfg fns tiRes env batch nonce k).1.take i) := by
  intro batch
  induction batch with
  | nil =>
    intro nonce k
    exact ⟨rfl, fun i hi => absurd hi (by simp [processBatchGo])⟩
  | cons r rest ih =>
    intro nonce k
    constructor
    · simp only [processBatchGo, List.length_cons]
      exact congrArg Nat.succ (ih _ _).1
    · intro i hi
      match i with
      | 0 => simp [processBatchGo, successCount]
      | i + 1 =>
        have hi2 : i < (processBatchGo cfg fns tiRes env rest
            (if (processOne cfg fns tiRes env r nonce k).succeeded then nonce + 1 else nonce)
            (k + (processOne cfg fns tiRes env r nonce k).invocations)).2.1.length := by
          simpa [processBatchGo] using hi
        have hrec := (ih (if (processOne cfg fns tiRes env r nonce k).succeeded then nonce + 1
          else nonce) (k + (processOne cfg fns tiRes env r nonce k).invocations)).2 i hi2
        simp only [processBatchGo, List.get_cons_succ, List.take_succ_cons]
        rw [hrec, successCount_cons, processOne_succeeded_eq]
        rcases h : (processOne cfg fns tiRes env r nonce k).result.status ==
            TransferStatus.success with _ | _
        · simp
        · simp [Nat.add_comm, Nat.add_assoc, Nat.add_left_comm]

/-- The per-batch invariant carried through the outer batch loop. -/
theorem runBatches_nonce_invariant (cfg : BatchConfig) (fns : EthersFns)
    (tiRes : Except String TokenInfo) (env : Nat → AttemptOutcome) (txCount : Nat → Nat) :
    ∀ (bs : List (List Recipient)) (batchIndex k : Nat) (pb : PerBatch),
      pb ∈ (runBatches cfg fns tiRes env txCount bs batchIndex k).1 →
      pb.nonces.length = pb.results.length ∧
      ∀ i (hi : i < pb.nonces.length),
        pb.nonces.get ⟨i, hi⟩ = pb.startNonce + successCount (pb.results.take i) := by
  intro bs
  induction bs with
  | nil =>
    intro batchIndex k pb hpb
    simp [runBatches] at hpb
  | cons batch more ih =>
    intro batchIndex k pb hpb
    simp only [runBatches, List.mem_cons] at hpb
    rcases hpb with rfl | hpb
    · exact processBatchGo_nonce_invariant cfg fns tiRes env batch (txCount batchIndex) k
    · exact ih (batchIndex + 1) _ pb hpb

/-- C2: in every batch of a run, the nonce used by each transfer equals the
batch's freshly fetched starting nonce plus the number of preceding
successes in that batch — the nonce advances only after a success and a
failed transfer does not consume it.  In particular, in a single-batch run
whose three outcomes are success, failed, success in submission order, the
third transfer's nonce is the first transfer's nonce plus one and the
outcome list has length 3. -/
theorem executeBatchTransfers_nonce_discipline (cfg : BatchConfig) (fns : EthersFns)
    (ti : TokenInfo) (env : Nat → AttemptOutcome) (txCount : Nat → Nat)
    (recipients : List Recipient) (tr : BatchTrace)
    (h : executeBatchTransfers cfg fns (.ok ti) env txCount recipients = .ok tr) :
    (∀ pb ∈ tr.batches,
      pb.nonces.length = pb.results.length ∧
      ∀ i (hi : i < pb.nonces.length),
        pb.nonces.get ⟨i, hi⟩ = pb.startNonce + successCount (pb.results.take i)) ∧
    (∀ pb, tr.batches = [pb] →
      pb.results.map TransferResult.status = [.success, .failed, .success] →
      tr.results.length = 3 ∧
      ∀ (h0 : 0 < pb.nonces.length) (h2 : 2 < pb.nonces.length),
        pb.nonces.get ⟨2, h2⟩ = pb.nonces.get ⟨0, h0⟩ + 1) := by
  simp only [executeBatchTransfers, Except.ok.injEq] at h
  subst h
  have hinv : ∀ pb ∈ ((runBatches cfg fns (.ok ti) env txCount
        (chunkArray recipients cfg.batchSize) 0 0).1 : List PerBatch),
      pb.nonces.length = pb.results.length ∧
      ∀ i (hi : i < pb.nonces.length),
        pb.nonces.get ⟨i, hi⟩ = pb.startNonce + successCount (pb.results.take i) :=
    fun pb hpb => runBatches_nonce_invariant cfg fns (.ok ti) env txCount
      (chunkArray recipients cfg.batchSize) 0 0 pb hpb
  refine ⟨hinv, ?_⟩
  intro pb hpb hstat
  have hpb1 : (runBatches cfg fns (.ok ti) env txCount
      (chunkArray recipients cfg.batchSize) 0 0).1 = [pb] := hpb
  have hres : (List.map PerBatch.results (runBatches cfg fns (.ok ti) env txCount
      (chunkArray recipients cfg.batchSize) 0 0).1).flatten = pb.results := by
    rw [hpb1]
    simp
  have hlen3 : pb.results.length = 3 := by
    have := congrArg List.length hstat
    simpa using this
  obtain ⟨hlen, hnon⟩ := hinv pb (by rw [hpb1]; exact List.mem_cons_self _ _)
  refine ⟨?_, ?_⟩
  · show (List.map PerBatch.results (runBatches cfg fns (.ok ti) env txCount
      (chunkArray recipients cfg.batchSize) 0 0).1).flatten.length = 3
    rw [hres, hlen3]
  intro h0 h2
  rw [hnon 2 h2, hnon 0 h0]
  rcases hr : pb.results with _ | ⟨a, tl⟩
  · rw [hr] at hlen3; simp at hlen3
  rcases htl : tl with _ | ⟨b, tl2⟩
  · rw [hr, htl] at hlen3; simp at hlen3
  have hstat2 := hstat
  rw [hr, htl] at hstat2
  simp only [List.map_cons, List.cons.injEq] at hstat2
  obtain ⟨ha, hbstat, _⟩ := hstat2
  have hfs : (TransferStatus.failed == TransferStatus.success) = false := rfl
  have hss : (TransferStatus.success == TransferStatus.success) = true := rfl
  simp [hr, htl, successCount, List.filter_cons, ha, hbstat, hfs, hss]

/-- Witness for C2: a concrete three-recipient single-batch run in which the
second transfer fails on gas estimation; the run yields statuses
success/failed/success and nonces 40, 41, 41. -/
theorem executeBatchTransfers_nonce_discipline_witness :
    ∃ tr : BatchTrace,
      executeBatchTransfers demoCfg demoFns (.ok demoToken) demoEnvSFS demoTxCount
        demoRecipients3 = .ok tr ∧
      tr.results.map TransferResult.status = [.success, .failed, .success] ∧
      (∀ pb ∈ tr.batches,
        pb.nonces.length = pb.results.length ∧
        ∀ i (hi : i < pb.nonces.length),
          pb.nonces.get ⟨i, hi⟩ = pb.startNonce + successCount (pb.results.take i)) ∧
      (∃ pb, tr.batches = [pb] ∧ pb.nonces = [40, 41, 41]) := by
  refine ⟨_, rfl, by decide, ?_, ?_⟩
  · exact (executeBatchTransfers_nonce_discipline demoCfg demoFns demoToken demoEnvSFS
      demoTxCount demoRecipients3 _ rfl).1
  · exact ⟨_, rfl, by decide⟩

/-- C4 (counterexample): with the retry cap at its default of 3, a transfer
whose gas estimation fails deterministically is recorded as a failed outcome
after a single `executeTransfer` invocation — the engine's retry wrapper
never re-runs it — and the recorded outcome carries the error text but no
attempt count. -/
theorem transfer_failure_recorded_without_retry :
    ∃ tr : BatchTrace,
      executeBatchTransfers demoCfg demoFns (.ok demoToken) demoEnvEstFail demoTxCount
        demoRecipients1 = .ok tr ∧
      demoCfg.maxRetries = 3 ∧
      tr.invocations = 1 ∧
      tr.results = [{ recipient := "0xAAA", amount := "5", status := .failed,
                      error := some "gas estimation failed" }] := by
  exact ⟨_, rfl, rfl, by decide, by decide⟩

/-- Whatever the provider does, a result returned (rather than thrown) by
`executeTransfer` never carries an `attempts` count. -/
theorem executeTransfer_ok_attempts_none (cfg : BatchConfig) (fns : EthersFns)
    (ti : TokenInfo) (r : Recipient) (nonce : Nat) (o : AttemptOutcome) (amount : Nat)
    (hp : fns.parseUnitsStr r.amount ti.decimals = .ok amount) :
    ∃ res : TransferResult,
      (executeTransfer cfg fns (.ok ti) r nonce o).1 = .ok res ∧ res.attempts = none := by
  rcases hest : o.estimateGas with e | g
  · exact ⟨_, congrArg Prod.fst (executeTransfer_estimate_error cfg fns ti r nonce o amount e
      hp hest), rfl⟩
  rcases hpop : o.populate with e | u
  · exact ⟨_, congrArg Prod.fst (executeTransfer_populate_error cfg fns ti r nonce o amount g e
      hp hest hpop), rfl⟩
  cases u
  rcases hdr : cfg.dryRun with _ | _
  · rcases hsend : o.sendTx with e | txHash
    · exact ⟨_, congrArg Prod.fst (executeTransfer_send_error cfg fns ti r nonce o amount g e
        hp hest hpop hdr hsend), rfl⟩
    rcases hwait : o.waitReceipt with e | receipt
    · rcases hrl : isRateLimitMessage e with _ | _
      · exact ⟨_, congrArg Prod.fst (executeTransfer_wait_error cfg fns ti r nonce o amount g
          txHash e hp hest hpop hdr hsend hwait hrl), rfl⟩
      · exact ⟨_, congrArg Prod.fst (executeTransfer_wait_rate_limited cfg fns ti r nonce o
          amount g txHash e hp hest hpop hdr hsend hwait hrl), rfl⟩
    · exact ⟨_, congrArg Prod.fst (executeTransfer_confirmed cfg fns ti r nonce o amount g
        txHash receipt hp hest hpop hdr hsend hwait), rfl⟩
  · exact ⟨_, congrArg Prod.fst (executeTransfer_dry_run cfg fns ti r nonce o amount g hp hest
      hpop hdr), rfl⟩

/-- C4 (amended): the retry wrapper in `executeBatchTransfers` only retries
exceptions that escape `executeTransfer`.  When the amount parses, every
gas-estimation / build / broadcast / confirmation failure is already caught
inside `executeTransfer`, so the wrapper sees a resolved result: exactly one
invocation happens, that single attempt's result is recorded as-is, and it
carries no attempt count.  Only when the amount fails to parse does every
attempt throw: then the operation is invoked `maxRetries` times and the
recorded failed outcome carries the retry-exhausted message and an attempt
count of `maxRetries + 1`. -/
theorem processOne_retry_scope (cfg : BatchConfig) (fns : EthersFns) (ti : TokenInfo)
    (env : Nat → AttemptOutcome) (r : Recipient) (nonce k : Nat)
    (hmax : 1 ≤ cfg.maxRetries) :
    (∀ amount, fns.parseUnitsStr r.amount ti.decimals = .ok amount →
      (processOne cfg fns (.ok ti) env r nonce k).invocations = 1 ∧
      Except.ok (processOne cfg fns (.ok ti) env r nonce k).result =
        (executeTransfer cfg fns (.ok ti) r nonce (env k)).1 ∧
      (processOne cfg fns (.ok ti) env r nonce k).result.attempts = none) ∧
    (∀ e, fns.parseUnitsStr r.amount ti.decimals = .error e →
      (processOne cfg fns (.ok ti) env r nonce k).invocations = cfg.maxRetries ∧
      (processOne cfg fns (.ok ti) env r nonce k).result =
        { recipient := r.address, amount := r.amount, status := .failed,
          error := some (retryErrorMessage cfg.maxRetries
            (some ("transfer to " ++ r.address))),
          attempts := some (cfg.maxRetries + 1) }) := by
  constructor
  · intro amount hp
    obtain ⟨res, hres, hatt⟩ :=
      executeTransfer_ok_attempts_none cfg fns ti r nonce (env k) amount hp
    have hfn1 : (fun attempt =>
        (executeTransfer cfg fns (.ok ti) r nonce (env (k + attempt - 1))).1) (0 + 1) =
        .ok res := by
      simpa using hres
    have hrr : executeWithRetry (batchRetryConfig cfg) (some ("transfer to " ++ r.address))
        (fun attempt =>
          (executeTransfer cfg fns (.ok ti) r nonce (env (k + attempt - 1))).1) =
        .ok res 1 :=
      retryGo_ok_of_failures cfg.maxRetries (some ("transfer to " ++ r.address)) _
        cfg.maxRetries 1 0 res (by omega) le_rfl (by omega) hmax
        (fun i hi1 hi2 => absurd (le_trans hi1 hi2) (by omega)) hfn1
    refine ⟨?_, ?_, ?_⟩
    · simp [processOne, hrr]
    · simp [processOne, hrr, hres]
    · simp [processOne, hrr, hatt]
  · intro e he
    have hfn : ∀ i, (fun attempt =>
        (executeTransfer cfg fns (.ok ti) r nonce (env (k + attempt - 1))).1) i =
        .error e := by
      intro i
      simp [executeTransfer, he]
    have hrr : executeWithRetry (batchRetryConfig cfg) (some ("transfer to " ++ r.address))
        (fun attempt =>
          (executeTransfer cfg fns (.ok ti) r nonce (env (k + attempt - 1))).1) =
        .exhausted ⟨retryErrorMessage cfg.maxRetries (some ("transfer to " ++ r.address)),
          e, cfg.maxRetries, cfg.maxRetries⟩ cfg.maxRetries :=
      retryGo_exhausted_of_failures cfg.maxRetries (some ("transfer to " ++ r.address)) _
        (fun _ => e) cfg.maxRetries 1 (by omega) le_rfl hmax (fun i _ _ => hfn i)
    constructor
    · simp [processOne, hrr]
    · simp [processOne, hrr]

/-- Witness for C4 (amended) at concrete inputs: a deterministic
gas-estimation failure is recorded after one invocation with no attempt
count, while an amount that `parseUnits` rejects exhausts the three attempts
and is recorded with the retry-exhausted message and attempt count 4. -/
theorem processOne_retry_scope_witness :
    ((processOne demoCfg demoFns (.ok demoToken) demoEnvEstFail
        { address := "0xAAA", amount := "5" } 40 0).invocations = 1 ∧
     Except.ok (processOne demoCfg demoFns (.ok demoToken) demoEnvEstFail
        { address := "0xAAA", amount := "5" } 40 0).result =
       (executeTransfer demoCfg demoFns (.ok demoToken)
        { address := "0xAAA", amount := "5" } 40 (demoEnvEstFail 0)).1 ∧
     (processOne demoCfg demoFns (.ok demoToken) demoEnvEstFail
        { address := "0xAAA", amount := "5" } 40 0).result.attempts = none) ∧
    ((processOne demoCfg demoFnsBadParse (.ok demoToken) demoEnvEstFail
        { address := "0xAAA", amount := "5" } 40 0).invocations = demoCfg.maxRetries ∧
     (processOne demoCfg demoFnsBadParse (.ok demoToken) demoEnvEstFail
        { address := "0xAAA", amount := "5" } 40 0).result =
       { recipient := "0xAAA", amount := "5", status := .failed,
         error := some (retryErrorMessage demoCfg.maxRetries (some "transfer to 0xAAA")),
         attempts := some (demoCfg.maxRetries + 1) }) := by
  constructor
  · exact (processOne_retry_scope demoCfg demoFns demoToken demoEnvEstFail
      { address := "0xAAA", amount := "5" } 40 0 (by decide)).1 _ rfl
  · exact (processOne_retry_scope demoCfg demoFnsBadParse demoToken demoEnvEstFail
      { address := "0xAAA", amount := "5" } 40 0 (by decide)).2 "invalid decimal value" rfl

/-- An accepted `checkBalances` run computes its token-sufficiency flag from
the summed, unit-converted total against the raw token balance. -/
theorem checkBalances_sufficientToken (cfg : BatchConfig) (fns : EthersFns)
    (ti : TokenInfo) (chain : ChainEnv) (recipients : List Recipient)
    (total : ℚ) (totalWei : Nat) (bal : BalanceCheck)
    (hsum : sumAmounts fns recipients = .ok total)
    (hwei : fns.parseUnitsQ total ti.decimals = .ok totalWei)
    (hcb : checkBalances cfg fns ti chain recipients = .ok bal) :
    bal.sufficientToken = decide (totalWei ≤ chain.tokenBalance) := by
  simp only [checkBalances, hsum, hwei] at hcb
  rcases hge : estimateGasForBatch cfg fns ti chain recipients with e2 | ge
  · rw [hge] at hcb
    cases hcb
  · rw [hge] at hcb
    injection hcb with hbal
    rw [← hbal]

/-- C6: if the sender's raw token balance is below the recipients' total
amount converted to smallest units, `executeBatch` raises an error before
any transfer is attempted — the broadcast list is empty. -/
theorem executeBatch_insufficient_token_aborts (cfg : BatchConfig) (fns : EthersFns)
    (ti : TokenInfo) (chain : ChainEnv) (recipients validated : List Recipient)
    (total : ℚ) (totalWei : Nat)
    (hval : validateRecipients fns recipients = .ok validated)
    (hsum : sumAmounts fns validated = .ok total)
    (hwei : fns.parseUnitsQ total ti.decimals = .ok totalWei)
    (hbal : chain.tokenBalance < totalWei) :
    (∃ e, (executeBatch cfg fns (.ok ti) chain recipients).1 = .error e) ∧
    (executeBatch cfg fns (.ok ti) chain recipients).2 = [] := by
  rcases hcb : checkBalances cfg fns ti chain validated with e | bal
  · exact ⟨⟨_, by simp only [executeBatch, hval, hcb]; rfl⟩, by simp [executeBatch, hval, hcb]⟩
  · have hst := checkBalances_sufficientToken cfg fns ti chain validated total totalWei bal
      hsum hwei hcb
    have hfalse : bal.sufficientToken = false := by
      rw [hst]
      exact decide_eq_false (not_le.mpr hbal)
    exact ⟨⟨_, by simp only [executeBatch, hval, hcb, hfalse, Bool.not_false, if_true]; rfl⟩,
      by simp [executeBatch, hval, hcb, hfalse]⟩

/-- Witness for C6: a sender holding 100 base units asked to send a batch
converting to 200 base units aborts with an error and broadcasts nothing. -/
theorem executeBatch_insufficient_token_aborts_witness :
    (∃ e, (executeBatch demoCfg demoFnsWei200 (.ok demoToken) demoChainPoor
      demoRecipients2).1 = .error e) ∧
    (executeBatch demoCfg demoFnsWei200 (.ok demoToken) demoChainPoor
      demoRecipients2).2 = [] :=
  executeBatch_insufficient_token_aborts demoCfg demoFnsWei200 demoToken demoChainPoor
    demoRecipients2 _ _ _ rfl rfl rfl (by decide)

end EvmToolkit
